import Mathlib

/-!
Shallow embedding of FSeam's `src/FSeam/MockVerifier.hpp` (namespace FSeam).

Modelling conventions:
* `std::map` is modelled extensionally as a lookup function `key → Option value`;
  the properties under study never depend on iteration order, and every map
  entry in the source is a freshly `make_shared`-created object, so entries of
  different keys never alias and a value map is faithful.
* Object addresses (`const void*` / `const T*`) are modelled as opaque `Nat`
  identities; the registry never dereferences them.
* `std::any` payloads and `void*` stub arguments are modelled by a type
  parameter `α`.
* `std::function<void(void*)>` handlers are modelled syntactically by
  `HandlerExpr`: `atom i` is an opaque test-supplied callable (its invocation
  on argument `a` is observed as the event `(i, a)`); `selfCompose next` is the
  closure built inside `dupeMethod` when composing (source lines 97-102): that
  lambda captures the shared `MethodCallVerifier` and the new handler by value,
  and at call time first invokes the *current* value of the entry's `_handler`
  field (read through the captured shared pointer) and then invokes the
  captured new handler. The handler stored in the entry at invocation time is
  passed to `runHandler` as the `cell` argument; invocation is given fuel
  semantics, `none` modelling non-termination.
* `std::cout` / `std::cerr` are distinguished by `StreamTag`; `verify` returns
  its boolean result together with the list of lines it printed, each tagged
  with the stream the source writes it to (the source prints with `std::cout`,
  the standard output stream).
* `const int times` is a C++ `int` (value range `[-2^31, 2^31)`); the source
  comparison `_verifiers.at(key)->_called == times` compares a `std::size_t`
  with an `int`, which converts `times` to `std::size_t` (64-bit, modular);
  `sizeT` models that conversion. `_called` is the size of a materialised
  vector and hence always below `2^64` on the machine, so it is modelled as the
  exact `Nat` length.
* `MockClassVerifier::invokeDupedMethod` performs no write to `_verifiers` or
  to any ledger entry in the source (it only reads the entry and invokes the
  stored handler), so it is modelled as a pure query returning the trace of
  atomic handler invocations.
* `TypeParseTraits<T>::ClassName` is an external compile-time capability
  (generated code); the model passes the resulting class-name string
  explicitly wherever the source reads the trait.
-/

namespace FSeam

variable {α : Type}

/-- Syntactic model of the `std::function<void(void*)>` handlers that arise in
the source: test-supplied opaque callables (`atom`) and the composing closure
built by `dupeMethod` (`selfCompose`), which re-reads the entry's `_handler`
field at call time and then runs the captured new handler. -/
inductive HandlerExpr where
  | atom (id : Nat)
  | selfCompose (next : HandlerExpr)
deriving DecidableEq

/-- Which standard stream a diagnostic line is written to (`std::cout` is the
standard output stream, `std::cerr` the standard error stream). -/
inductive StreamTag where
  | stdout
  | stderr
deriving DecidableEq

/-- Conversion of a C++ `int` value to `std::size_t` (64-bit, modular), as
performed by the usual arithmetic conversions in `_called == times`. -/
def sizeT (t : Int) : Nat := (t % (2 ^ 64 : Int)).toNat

/-- Ledger entry: description and usage record of one mocked method
(source lines 30-35). Field defaults mirror value-initialisation of
`MethodCallVerifier` by `std::make_shared` (empty string, zero count, empty
`std::function`, empty vector). -/
structure MethodCallVerifier (α : Type) where
  _methodName : String := ""
  _called : Nat := 0
  _handler : Option HandlerExpr := none
  _calledData : List α := []

/-- Per-identity mock registry: class-name prefix and the method ledger
(source lines 43-136, fields at lines 134-135). -/
structure MockClassVerifier (α : Type) where
  _className : String
  _verifiers : String → Option (MethodCallVerifier α)

/-- The `MockClassVerifier(std::string className)` constructor (source line
45): stores the class name; `_verifiers` starts empty. -/
def MockClassVerifier.create (className : String) : MockClassVerifier α :=
  { _className := className, _verifiers := fun _ => none }

/-- Fuel semantics of invoking a handler. `cell` is the value of the entry's
`_handler` field at invocation time (what the composing closure's captured
shared pointer reads back); the result is the ordered trace of atomic handler
invocations `(id, argument)`, or `none` when the fuel runs out (modelling
non-termination). -/
def runHandler (arg : α) (cell : HandlerExpr) : Nat → HandlerExpr → Option (List (Nat × α))
  | 0, _ => none
  | _ + 1, HandlerExpr.atom i => some [(i, arg)]
  | fuel + 1, HandlerExpr.selfCompose next =>
      (runHandler arg cell fuel cell).bind fun l1 =>
        (runHandler arg cell fuel next).map fun l2 => l1 ++ l2

/-- `MockClassVerifier::invokeDupedMethod` (source lines 47-55): look the key
up; if an entry exists and holds a non-empty handler, invoke it on `arg`;
otherwise do nothing. The source performs no write, so the model returns only
the invocation trace. -/
def MockClassVerifier.invokeDupedMethod (s : MockClassVerifier α) (methodName : String)
    (arg : α) (fuel : Nat) : Option (List (Nat × α)) :=
  let key := s._className ++ methodName
  match s._verifiers key with
  | some mcv =>
      match mcv._handler with
      | some dupedMethod => runHandler arg dupedMethod fuel dupedMethod
      | none => some []
  | none => some []

/-- `MockClassVerifier::methodCall` (source lines 63-75): get-or-create the
entry for `_className + methodName`, set its `_methodName`, append the calling
info to `_calledData`, set `_called` to the new data size, and store the entry
back under the key. -/
def MockClassVerifier.methodCall (s : MockClassVerifier α) (methodName : String)
    (callingInfo : α) : MockClassVerifier α :=
  let key := s._className ++ methodName
  let methodCallVerifier :=
    match s._verifiers key with
    | some mcv => mcv
    | none => ({} : MethodCallVerifier α)
  let methodCallVerifier := { methodCallVerifier with
    _methodName := methodName,
    _calledData := methodCallVerifier._calledData ++ [callingInfo] }
  let methodCallVerifier := { methodCallVerifier with
    _called := methodCallVerifier._calledData.length }
  { s with _verifiers := fun k => if k = key then some methodCallVerifier else s._verifiers k }

/-- `MockClassVerifier::dupeMethod` (source lines 88-106): get-or-create the
entry, set its `_methodName`, clear `_calledData`, set `_called` to the (now
zero) data size; if `isComposed` and a handler is already installed, store the
composing closure (modelled `selfCompose handler`, see `HandlerExpr`),
otherwise store `handler`; store the entry back under the key. -/
def MockClassVerifier.dupeMethod (s : MockClassVerifier α) (methodName : String)
    (handler : HandlerExpr) (isComposed : Bool := false) : MockClassVerifier α :=
  let key := s._className ++ methodName
  let methodCallVerifier :=
    match s._verifiers key with
    | some mcv => mcv
    | none => ({} : MethodCallVerifier α)
  let methodCallVerifier := { methodCallVerifier with
    _methodName := methodName,
    _calledData := ([] : List α) }
  let methodCallVerifier := { methodCallVerifier with
    _called := methodCallVerifier._calledData.length }
  let methodCallVerifier :=
    if isComposed && methodCallVerifier._handler.isSome then
      { methodCallVerifier with _handler := some (HandlerExpr.selfCompose handler) }
    else
      { methodCallVerifier with _handler := some handler }
  { s with _verifiers := fun k => if k = key then some methodCallVerifier else s._verifiers k }

/-- `MockClassVerifier::verify` (source lines 117-131): when the key is
unknown, print the never-called diagnostic (with `std::cout`) if `times > 0`
and return `times == 0`; otherwise compute
`(times <= -1 && _called > 0) || (_called == times)` (the second comparison
converting `times` to `std::size_t`), print the mismatch diagnostic (with
`std::cout`) when the result is false, and return the result. The returned
list collects the printed lines, tagged with the stream they go to. -/
def MockClassVerifier.verify (s : MockClassVerifier α) (methodName : String)
    (times : Int := -1) : Bool × List (StreamTag × String) :=
  let key := s._className ++ methodName
  match s._verifiers key with
  | none =>
      (times == 0,
        if times > 0 then
          [(StreamTag.stdout, "Verify error for method " ++ key ++
            ", method never have been called while we expected " ++ toString times ++ " calls")]
        else [])
  | some mcv =>
      let result := (decide (times ≤ -1) && decide (0 < mcv._called)) || (mcv._called == sizeT times)
      (result,
        if result then [] else
          [(StreamTag.stdout, "Verify error for method " ++ key ++
            ", method has been called " ++ toString mcv._called ++ " and not " ++ toString times)])

/-- Recorded payloads currently held for `methodName`'s key ([] when the key
is unknown); a reading off the ledger used to state the spec's properties. -/
def dataOf (s : MockClassVerifier α) (methodName : String) : List α :=
  match s._verifiers (s._className ++ methodName) with
  | some mcv => mcv._calledData
  | none => []

/-- Handler currently installed for `methodName`'s key (`none` when the key is
unknown or no stub was installed). -/
def handlerOf (s : MockClassVerifier α) (methodName : String) : Option HandlerExpr :=
  match s._verifiers (s._className ++ methodName) with
  | some mcv => mcv._handler
  | none => none

/-- Recorded call count currently held for `methodName`'s key (0 when the key
is unknown). -/
def calledCount (s : MockClassVerifier α) (methodName : String) : Nat :=
  match s._verifiers (s._className ++ methodName) with
  | some mcv => mcv._called
  | none => 0

/-- A sequence of `methodCall` invocations on the same method, recording the
given payloads in order. -/
def applyCalls (s : MockClassVerifier α) (methodName : String) (ps : List α) :
    MockClassVerifier α :=
  ps.foldl (fun st p => st.methodCall methodName p) s

/-- Process-wide registry (source lines 141-211, fields at lines 209-210):
instance-keyed mocks and class-name-keyed default mocks. -/
structure MockVerifier (α : Type) where
  _mockedClass : Nat → Option (MockClassVerifier α)
  _defaultMockedClass : String → Option (MockClassVerifier α)

/-- The default `MockVerifier()` constructor (source line 145): both maps
start empty. -/
def MockVerifier.create : MockVerifier α :=
  { _mockedClass := fun _ => none, _defaultMockedClass := fun _ => none }

/-- `MockVerifier::isMockRegistered` (source lines 162-164). -/
def MockVerifier.isMockRegistered (g : MockVerifier α) (mockPtr : Nat) : Bool :=
  (g._mockedClass mockPtr).isSome

/-- `MockVerifier::addMock` (source lines 198-202): map the address to a fresh
`MockClassVerifier` built from `TypeParseTraits<T>::ClassName` (passed here as
`className`) and return it. -/
def MockVerifier.addMock (g : MockVerifier α) (mockPtr : Nat) (className : String) :
    MockVerifier α × MockClassVerifier α :=
  let v : MockClassVerifier α := MockClassVerifier.create className
  ({ g with _mockedClass := fun p => if p = mockPtr then some v else g._mockedClass p }, v)

/-- `MockVerifier::getMock` (source lines 175-180): return the registered
verifier for the address, creating one via `addMock` when absent. -/
def MockVerifier.getMock (g : MockVerifier α) (mockPtr : Nat) (className : String) :
    MockVerifier α × MockClassVerifier α :=
  match g._mockedClass mockPtr with
  | some v => (g, v)
  | none => g.addMock mockPtr className

/-- `MockVerifier::addDefaultMock` (source lines 203-206). -/
def MockVerifier.addDefaultMock (g : MockVerifier α) (className : String) :
    MockVerifier α × MockClassVerifier α :=
  let v : MockClassVerifier α := MockClassVerifier.create className
  ({ g with _defaultMockedClass := fun k => if k = className then some v else g._defaultMockedClass k }, v)

/-- `MockVerifier::getDefaultMock` (source lines 191-195): return the default
verifier for the class name, creating one via `addDefaultMock` when absent. -/
def MockVerifier.getDefaultMock (g : MockVerifier α) (className : String) :
    MockVerifier α × MockClassVerifier α :=
  match g._defaultMockedClass className with
  | some v => (g, v)
  | none => g.addDefaultMock className

/-- Calling `methodCall` through the mutable reference returned by
`getMock(mockPtr)`: the registered entry for `mockPtr` is mutated in place. -/
def MockVerifier.mockMethodCall (g : MockVerifier α) (mockPtr : Nat) (className : String)
    (methodName : String) (payload : α) : MockVerifier α :=
  let gv := g.getMock mockPtr className
  { gv.1 with _mockedClass := fun p =>
      if p = mockPtr then some (gv.2.methodCall methodName payload)
      else gv.1._mockedClass p }

/-- Calling `dupeMethod` through the mutable reference returned by
`getMock(mockPtr)`. -/
def MockVerifier.mockDupeMethod (g : MockVerifier α) (mockPtr : Nat) (className : String)
    (methodName : String) (handler : HandlerExpr) (isComposed : Bool) : MockVerifier α :=
  let gv := g.getMock mockPtr className
  { gv.1 with _mockedClass := fun p =>
      if p = mockPtr then some (gv.2.dupeMethod methodName handler isComposed)
      else gv.1._mockedClass p }

/-- Calling `methodCall` through the mutable reference returned by
`getDefaultMock(className)`. -/
def MockVerifier.defaultMethodCall (g : MockVerifier α) (className : String)
    (methodName : String) (payload : α) : MockVerifier α :=
  let gv := g.getDefaultMock className
  { gv.1 with _defaultMockedClass := fun k =>
      if k = className then some (gv.2.methodCall methodName payload)
      else gv.1._defaultMockedClass k }

/-- Calling `dupeMethod` through the mutable reference returned by
`getDefaultMock(className)`. -/
def MockVerifier.defaultDupeMethod (g : MockVerifier α) (className : String)
    (methodName : String) (handler : HandlerExpr) (isComposed : Bool) : MockVerifier α :=
  let gv := g.getDefaultMock className
  { gv.1 with _defaultMockedClass := fun k =>
      if k = className then some (gv.2.dupeMethod methodName handler isComposed)
      else gv.1._defaultMockedClass k }

/-- `MockVerifier::instance` (source lines 148-153): the singleton state is
the optional current registry; a `nullptr` state is replaced by a fresh
default-constructed registry. Returns the new singleton state and the registry
the reference points at. -/
def instanceAccess (inst : Option (MockVerifier α)) :
    Option (MockVerifier α) × MockVerifier α :=
  match inst with
  | some g => (some g, g)
  | none => (some MockVerifier.create, MockVerifier.create)

/-- `MockVerifier::cleanUp` (source lines 158-160): reset the singleton. -/
def cleanUp (_inst : Option (MockVerifier α)) : Option (MockVerifier α) := none

/-! Helper lemmas about the embedded operations. -/

lemma MockClassVerifier.methodCall_className (s : MockClassVerifier α) (m : String) (p : α) :
    (s.methodCall m p)._className = s._className := rfl

lemma MockClassVerifier.dupeMethod_className (s : MockClassVerifier α) (m : String)
    (h : HandlerExpr) (flag : Bool) :
    (s.dupeMethod m h flag)._className = s._className := rfl

lemma applyCalls_nil (s : MockClassVerifier α) (m : String) : applyCalls s m [] = s := rfl

lemma applyCalls_cons (s : MockClassVerifier α) (m : String) (p : α) (ps : List α) :
    applyCalls s m (p :: ps) = applyCalls (s.methodCall m p) m ps := rfl

lemma applyCalls_className (m : String) :
    ∀ (ps : List α) (s : MockClassVerifier α), (applyCalls s m ps)._className = s._className
  | [], _ => rfl
  | p :: ps, s => by
      rw [applyCalls_cons]
      exact applyCalls_className m ps (s.methodCall m p)

lemma MockClassVerifier.methodCall_lookup (s : MockClassVerifier α) (m : String) (p : α) :
    (s.methodCall m p)._verifiers (s._className ++ m) =
      some { _methodName := m, _called := (dataOf s m).length + 1,
             _handler := handlerOf s m, _calledData := dataOf s m ++ [p] } := by
  unfold MockClassVerifier.methodCall dataOf handlerOf
  cases hf : s._verifiers (s._className ++ m) <;> simp [hf]

lemma dataOf_methodCall (s : MockClassVerifier α) (m : String) (p : α) :
    dataOf (s.methodCall m p) m = dataOf s m ++ [p] := by
  unfold dataOf
  rw [MockClassVerifier.methodCall_className, MockClassVerifier.methodCall_lookup]
  rfl

lemma handlerOf_methodCall (s : MockClassVerifier α) (m : String) (p : α) :
    handlerOf (s.methodCall m p) m = handlerOf s m := by
  unfold handlerOf
  rw [MockClassVerifier.methodCall_className, MockClassVerifier.methodCall_lookup]
  rfl

lemma applyCalls_lookup (m : String) :
    ∀ (ps : List α) (_ : ps ≠ []) (s : MockClassVerifier α),
      (applyCalls s m ps)._verifiers (s._className ++ m) =
        some { _methodName := m, _called := (dataOf s m ++ ps).length,
               _handler := handlerOf s m, _calledData := dataOf s m ++ ps }
  | [], hne, _ => absurd rfl hne
  | [p], _, s => by
      rw [applyCalls_cons, applyCalls_nil]
      simpa using MockClassVerifier.methodCall_lookup s m p
  | p :: q :: ps, _, s => by
      have ih := applyCalls_lookup m (q :: ps) (by simp) (s.methodCall m p)
      rw [MockClassVerifier.methodCall_className, dataOf_methodCall, handlerOf_methodCall] at ih
      rw [applyCalls_cons]
      simpa [List.append_assoc] using ih

lemma MockClassVerifier.dupeMethod_lookup (s : MockClassVerifier α) (m : String)
    (h : HandlerExpr) (flag : Bool) :
    (s.dupeMethod m h flag)._verifiers (s._className ++ m) =
      some { _methodName := m, _called := 0,
             _handler := some (if flag && (handlerOf s m).isSome then HandlerExpr.selfCompose h
                               else h),
             _calledData := ([] : List α) } := by
  unfold MockClassVerifier.dupeMethod handlerOf
  cases hf : s._verifiers (s._className ++ m) with
  | none => cases flag <;> simp [hf]
  | some mcv => cases flag <;> cases hh : mcv._handler <;> simp [hf, hh]

lemma runHandler_selfCompose_none (arg : α) (h2 : HandlerExpr) :
    ∀ fuel : Nat,
      runHandler arg (HandlerExpr.selfCompose h2) fuel (HandlerExpr.selfCompose h2) = none
  | 0 => rfl
  | fuel + 1 => by
      simp [runHandler, runHandler_selfCompose_none arg h2 fuel]

lemma sizeT_eq_toNat (t : Int) (h0 : 0 ≤ t) (h1 : t < 2 ^ 64) : sizeT t = t.toNat := by
  unfold sizeT
  rw [Int.emod_eq_of_lt h0 h1]

lemma MockClassVerifier.verify_lookup_none (s : MockClassVerifier α) (m : String) (t : Int)
    (hf : s._verifiers (s._className ++ m) = none) :
    s.verify m t = (t == 0,
      if t > 0 then
        [(StreamTag.stdout, "Verify error for method " ++ (s._className ++ m) ++
          ", method never have been called while we expected " ++ toString t ++ " calls")]
      else []) := by
  unfold MockClassVerifier.verify
  simp [hf]

lemma MockClassVerifier.verify_lookup_some (s : MockClassVerifier α) (m : String) (t : Int)
    (mcv : MethodCallVerifier α) (hf : s._verifiers (s._className ++ m) = some mcv) :
    s.verify m t =
      ((decide (t ≤ -1) && decide (0 < mcv._called)) || (mcv._called == sizeT t),
        if (decide (t ≤ -1) && decide (0 < mcv._called)) || (mcv._called == sizeT t) then []
        else [(StreamTag.stdout, "Verify error for method " ++ (s._className ++ m) ++
          ", method has been called " ++ toString mcv._called ++ " and not " ++ toString t)]) := by
  unfold MockClassVerifier.verify
  simp [hf]

lemma verify_after_reset (b : MockClassVerifier α) (m : String)
    (hb : b._verifiers (b._className ++ m) = none ∨
      ∃ mcv, b._verifiers (b._className ++ m) = some mcv ∧ mcv._calledData = ([] : List α) ∧
        mcv._called = 0)
    (ps : List α) (N : Int) (h0 : 0 ≤ N) (h1 : N < 2 ^ 31) :
    ((applyCalls b m ps).verify m N).fst = true ↔ (ps.length : Int) = N := by
  have hds : dataOf b m = [] := by
    rcases hb with hb | ⟨mcv, hb, hd, _⟩
    · unfold dataOf; rw [hb]
    · unfold dataOf; rw [hb]; exact hd
  have hsz : sizeT N = N.toNat := sizeT_eq_toNat N h0 (by omega)
  rcases eq_or_ne ps ([] : List α) with rfl | hne
  · rw [applyCalls_nil]
    rcases hb with hb | ⟨mcv, hb, _, hc0⟩
    · rw [MockClassVerifier.verify_lookup_none b m N hb]
      simp only [List.length_nil, Nat.cast_zero]
      simp [beq_iff_eq]
      omega
    · rw [MockClassVerifier.verify_lookup_some b m N mcv hb]
      simp only [List.length_nil, Nat.cast_zero]
      simp [hc0, hsz, beq_iff_eq]
      omega
  · have hl := applyCalls_lookup m ps hne b
    rw [hds] at hl
    simp only [List.nil_append] at hl
    have hf : (applyCalls b m ps)._verifiers ((applyCalls b m ps)._className ++ m) =
        some { _methodName := m, _called := ps.length, _handler := handlerOf b m,
               _calledData := ps } := by
      rw [applyCalls_className]; exact hl
    rw [MockClassVerifier.verify_lookup_some _ m N _ hf]
    have hdec : decide (N ≤ -1) = false := by simp; omega
    simp [hdec, hsz, beq_iff_eq]
    omega

/-- C2: for every sequence of `methodCall` invocations on one (identity,
method) key and every non-negative `N` in the range of the C++ `int` argument,
`verify(method, N)` returns true iff exactly `N` calls were recorded since the
later of the last `dupeMethod` on that key (first conjunct: an arbitrary prior
state followed by `dupeMethod`, then the recorded calls) or the verifier's
creation (second conjunct: a freshly constructed verifier, then the recorded
calls). -/
theorem verify_counts_calls (s : MockClassVerifier α) (cn m : String) (h : HandlerExpr)
    (flag : Bool) (ps : List α) (N : Int) (h0 : 0 ≤ N) (h1 : N < 2 ^ 31) :
    (((applyCalls (s.dupeMethod m h flag) m ps).verify m N).fst = true ↔ (ps.length : Int) = N)
    ∧ (((applyCalls (MockClassVerifier.create cn : MockClassVerifier α) m ps).verify m N).fst
        = true ↔ (ps.length : Int) = N) := by
  constructor
  · refine verify_after_reset _ m (Or.inr ?_) ps N h0 h1
    exact ⟨_, MockClassVerifier.dupeMethod_lookup s m h flag, rfl, rfl⟩
  · exact verify_after_reset _ m (Or.inl rfl) ps N h0 h1

/-- Witness for `verify_counts_calls` at a concrete input: two calls recorded
after a `dupeMethod` reset, checked against `N = 2`. -/
theorem verify_counts_calls_witness :
    ((0 : Int) ≤ 2 ∧ (2 : Int) < 2 ^ 31)
    ∧ (((applyCalls ((MockClassVerifier.create "Foo" : MockClassVerifier Nat).dupeMethod
          "bar" (HandlerExpr.atom 1) false) "bar" [10, 20]).verify "bar" 2).fst = true
        ↔ (([10, 20] : List Nat).length : Int) = 2) :=
  ⟨⟨by decide, by decide⟩,
    (verify_counts_calls (MockClassVerifier.create "Foo") "Foo" "bar" (HandlerExpr.atom 1)
      false [10, 20] 2 (by decide) (by decide)).1⟩

/-- C3: `dupeMethod(method, handler, compose=false)` clears the recorded
payload history of that method's key and resets its call count to 0, whatever
was recorded before, and `verify(method, 0)` run immediately afterwards
returns true. -/
theorem dupeMethod_resets_history (s : MockClassVerifier α) (m : String) (h : HandlerExpr) :
    dataOf (s.dupeMethod m h false) m = [] ∧ calledCount (s.dupeMethod m h false) m = 0
    ∧ ((s.dupeMethod m h false).verify m 0).fst = true := by
  have hl := MockClassVerifier.dupeMethod_lookup s m h false
  simp only [Bool.false_and, if_neg Bool.false_ne_true] at hl
  have hf : (s.dupeMethod m h false)._verifiers ((s.dupeMethod m h false)._className ++ m) =
      some { _methodName := m, _called := 0, _handler := some h,
             _calledData := ([] : List α) } := by
    rw [MockClassVerifier.dupeMethod_className]; exact hl
  refine ⟨?_, ?_, ?_⟩
  · unfold dataOf; rw [hf]
  · unfold calledCount; rw [hf]
  · rw [MockClassVerifier.verify_lookup_some _ m 0 _ hf]
    simp [sizeT]

/-- C5: for a method whose key has no ledger entry, `verify` fails for every
positive expected count and succeeds for an expected count of 0. -/
theorem verify_unknown_method (s : MockClassVerifier α) (m : String) (t : Int)
    (habsent : s._verifiers (s._className ++ m) = none) :
    (0 < t → (s.verify m t).fst = false) ∧ (s.verify m 0).fst = true := by
  constructor
  · intro ht
    rw [MockClassVerifier.verify_lookup_none s m t habsent]
    simp only [beq_eq_false_iff_ne, ne_eq]
    omega
  · rw [MockClassVerifier.verify_lookup_none s m 0 habsent]
    simp

/-- Witness for `verify_unknown_method`: a freshly constructed verifier has no
entry for "bar", so `verify("bar", 3)` fails and `verify("bar", 0)` succeeds. -/
theorem verify_unknown_method_witness :
    ((0 < (3 : Int) →
        ((MockClassVerifier.create "Foo" : MockClassVerifier Nat).verify "bar" 3).fst = false)
      ∧ ((MockClassVerifier.create "Foo" : MockClassVerifier Nat).verify "bar" 0).fst = true) :=
  verify_unknown_method (MockClassVerifier.create "Foo") "bar" 3 rfl

/-- C8: `verify(method, -1)` (the default `times` argument) returns true iff
the recorded call count for that key is greater than 0 (an absent key counting
as 0). -/
theorem verify_default_times (s : MockClassVerifier α) (m : String) :
    (s.verify m (-1)).fst = true ↔ 0 < calledCount s m := by
  cases hf : s._verifiers (s._className ++ m) with
  | none =>
      rw [MockClassVerifier.verify_lookup_none s m (-1) hf]
      unfold calledCount
      rw [hf]
      simp
  | some mcv =>
      rw [MockClassVerifier.verify_lookup_some s m (-1) mcv hf]
      unfold calledCount
      rw [hf]
      have hsz : sizeT (-1) = 2 ^ 64 - 1 := by decide
      simp [hsz, beq_iff_eq]
      omega

/-- C1: installing a stub `S1`, then a second handler `S2` with
`compose=true`, and invoking the duped method never yields `S1` followed by
`S2`: the composing closure re-reads the entry's already-overwritten
`_handler` field at call time, so the invocation recurses without bound (the
result is `none` for every amount of fuel) and neither handler ever completes.
This contradicts the source's own documentation of `isComposed` ("keep the
current handler and add this new one as composition"). -/
theorem dupeMethod_compose_diverges (s : MockClassVerifier α) (m : String)
    (h1 h2 : HandlerExpr) (arg : α) (fuel : Nat) :
    ((s.dupeMethod m h1 false).dupeMethod m h2 true).invokeDupedMethod m arg fuel = none := by
  have hh1 : handlerOf (s.dupeMethod m h1 false) m = some h1 := by
    unfold handlerOf
    rw [MockClassVerifier.dupeMethod_className, MockClassVerifier.dupeMethod_lookup]
    simp
  have hl2 := MockClassVerifier.dupeMethod_lookup (s.dupeMethod m h1 false) m h2 true
  rw [hh1] at hl2
  simp only [Option.isSome_some, Bool.and_self, if_pos] at hl2
  rw [MockClassVerifier.dupeMethod_className] at hl2
  simp [MockClassVerifier.invokeDupedMethod, MockClassVerifier.dupeMethod_className, hl2,
    runHandler_selfCompose_none]

/-- Counterexample to C4 as stated: with no ledger entry for "bar" and the
default `times = -1`, `verify` returns false yet prints nothing at all (first
conjunct), and when it does print a diagnostic on mismatch, the line goes to
`std::cout` — the standard output stream — not a standard error stream
(second conjunct). -/
theorem verify_error_stream_counterexample :
    (MockClassVerifier.create "Foo" : MockClassVerifier Nat).verify "bar" (-1) = (false, [])
    ∧ (((MockClassVerifier.create "Foo" : MockClassVerifier Nat).methodCall "bar" 7).verify
          "bar" 2).snd =
        [(StreamTag.stdout,
          "Verify error for method Foobar, method has been called 1 and not 2")] := by
  constructor
  · decide
  · decide

/-- C4 amended: `verify` is a total function (never throws), and whenever it
returns false it writes exactly one human-readable diagnostic line — naming
the key and the expected count, together with the actual count when the key
has a ledger entry, or that the method was never called when it does not — to
standard output (`std::cout`), except that when the key has no ledger entry
and `times` is negative it returns false silently. -/
theorem verify_failure_diagnostics (s : MockClassVerifier α) (m : String) (t : Int)
    (hfail : (s.verify m t).fst = false) :
    (s.verify m t).snd =
      if (s._verifiers (s._className ++ m)).isSome then
        [(StreamTag.stdout, "Verify error for method " ++ (s._className ++ m) ++
          ", method has been called " ++ toString (calledCount s m) ++ " and not " ++
          toString t)]
      else if t > 0 then
        [(StreamTag.stdout, "Verify error for method " ++ (s._className ++ m) ++
          ", method never have been called while we expected " ++ toString t ++ " calls")]
      else [] := by
  cases hf : s._verifiers (s._className ++ m) with
  | none =>
      rw [MockClassVerifier.verify_lookup_none s m t hf]
      simp
  | some mcv =>
      have hc : calledCount s m = mcv._called := by unfold calledCount; rw [hf]
      rw [MockClassVerifier.verify_lookup_some s m t mcv hf] at hfail
      rw [MockClassVerifier.verify_lookup_some s m t mcv hf, hc]
      simp only at hfail
      simp [hfail]

/-- Witness for `verify_failure_diagnostics`: one recorded call checked
against an expected count of 2 fails and prints the mismatch line to standard
output. -/
theorem verify_failure_diagnostics_witness :
    (((MockClassVerifier.create "Foo" : MockClassVerifier Nat).methodCall "bar" 7).verify
        "bar" 2).snd =
      [(StreamTag.stdout,
        "Verify error for method Foobar, method has been called 1 and not 2")] := by
  rw [verify_failure_diagnostics
        ((MockClassVerifier.create "Foo" : MockClassVerifier Nat).methodCall "bar" 7)
        "bar" 2 (by decide)]
  decide

/-- C6: after `dupeMethod("bar", h1)` (with `h1` an opaque test-supplied
callable), a single `invokeDupedMethod("bar", arg)` invokes `h1` exactly once
with exactly `arg` (first conjunct; `invokeDupedMethod` performs no write to
the ledger in the source, so it is a pure query in the model), and
`verify("bar", 0)` still returns true afterwards (second conjunct). -/
theorem invokeDuped_runs_stub_once (s : MockClassVerifier α) (m : String) (i : Nat)
    (arg : α) (fuel : Nat) :
    (s.dupeMethod m (HandlerExpr.atom i) false).invokeDupedMethod m arg (fuel + 1)
      = some [(i, arg)]
    ∧ ((s.dupeMethod m (HandlerExpr.atom i) false).verify m 0).fst = true := by
  have hl := MockClassVerifier.dupeMethod_lookup s m (HandlerExpr.atom i) false
  simp only [Bool.false_and, if_neg Bool.false_ne_true] at hl
  have hf : (s.dupeMethod m (HandlerExpr.atom i) false)._verifiers
      ((s.dupeMethod m (HandlerExpr.atom i) false)._className ++ m) =
      some { _methodName := m, _called := 0, _handler := some (HandlerExpr.atom i),
             _calledData := ([] : List α) } := by
    rw [MockClassVerifier.dupeMethod_className]; exact hl
  constructor
  · simp [MockClassVerifier.invokeDupedMethod, hf, runHandler]
  · rw [MockClassVerifier.verify_lookup_some _ m 0 _ hf]
    simp [sizeT]

lemma MockVerifier.getMock_snd_of_eq {g1 g2 : MockVerifier α} (p : Nat) (cn : String)
    (h : g1._mockedClass p = g2._mockedClass p) :
    (g1.getMock p cn).2 = (g2.getMock p cn).2 := by
  unfold MockVerifier.getMock MockVerifier.addMock
  rw [h]
  cases g2._mockedClass p <;> rfl

lemma MockVerifier.getDefaultMock_snd_of_eq {g1 g2 : MockVerifier α} (cn : String)
    (h : g1._defaultMockedClass cn = g2._defaultMockedClass cn) :
    (g1.getDefaultMock cn).2 = (g2.getDefaultMock cn).2 := by
  unfold MockVerifier.getDefaultMock MockVerifier.addDefaultMock
  rw [h]
  cases g2._defaultMockedClass cn <;> rfl

lemma MockVerifier.mockMethodCall_lookup_ne (g : MockVerifier α) (A B : Nat) (cn m : String)
    (payload : α) (hAB : A ≠ B) :
    (g.mockMethodCall A cn m payload)._mockedClass B = g._mockedClass B := by
  have hBA : ¬(B = A) := fun hc => hAB hc.symm
  unfold MockVerifier.mockMethodCall MockVerifier.getMock MockVerifier.addMock
  cases hA : g._mockedClass A <;> simp [hBA]

lemma MockVerifier.mockDupeMethod_lookup_ne (g : MockVerifier α) (A B : Nat) (cn m : String)
    (handler : HandlerExpr) (flag : Bool) (hAB : A ≠ B) :
    (g.mockDupeMethod A cn m handler flag)._mockedClass B = g._mockedClass B := by
  have hBA : ¬(B = A) := fun hc => hAB hc.symm
  unfold MockVerifier.mockDupeMethod MockVerifier.getMock MockVerifier.addMock
  cases hA : g._mockedClass A <;> simp [hBA]

lemma MockVerifier.defaultMethodCall_mockedClass (g : MockVerifier α) (cn m : String)
    (payload : α) :
    (g.defaultMethodCall cn m payload)._mockedClass = g._mockedClass := by
  unfold MockVerifier.defaultMethodCall MockVerifier.getDefaultMock MockVerifier.addDefaultMock
  cases hd : g._defaultMockedClass cn <;> rfl

lemma MockVerifier.defaultDupeMethod_mockedClass (g : MockVerifier α) (cn m : String)
    (handler : HandlerExpr) (flag : Bool) :
    (g.defaultDupeMethod cn m handler flag)._mockedClass = g._mockedClass := by
  unfold MockVerifier.defaultDupeMethod MockVerifier.getDefaultMock MockVerifier.addDefaultMock
  cases hd : g._defaultMockedClass cn <;> rfl

lemma MockVerifier.mockMethodCall_defaultMockedClass (g : MockVerifier α) (p : Nat)
    (cn m : String) (payload : α) :
    (g.mockMethodCall p cn m payload)._defaultMockedClass = g._defaultMockedClass := by
  unfold MockVerifier.mockMethodCall MockVerifier.getMock MockVerifier.addMock
  cases hp : g._mockedClass p <;> rfl

lemma MockVerifier.mockDupeMethod_defaultMockedClass (g : MockVerifier α) (p : Nat)
    (cn m : String) (handler : HandlerExpr) (flag : Bool) :
    (g.mockDupeMethod p cn m handler flag)._defaultMockedClass = g._defaultMockedClass := by
  unfold MockVerifier.mockDupeMethod MockVerifier.getMock MockVerifier.addMock
  cases hp : g._mockedClass p <;> rfl

/-- C7: after `cleanUp()`, the next `instance()` access yields a fresh, empty
registry, so `isMockRegistered` returns false for every previously registered
identity (here: any identity that was registered in the pre-`cleanUp`
singleton). -/
theorem cleanUp_then_instance_fresh (inst : Option (MockVerifier α)) (p : Nat)
    (hreg : (instanceAccess inst).2.isMockRegistered p = true) :
    (instanceAccess (cleanUp inst)).2.isMockRegistered p = false := rfl

/-- Witness for `cleanUp_then_instance_fresh`: identity 5 registered via
`getMock`, then `cleanUp` makes the next `instance()` report it unregistered. -/
theorem cleanUp_then_instance_fresh_witness :
    ((instanceAccess (some ((MockVerifier.create : MockVerifier Nat).getMock 5 "Foo").1)).2.isMockRegistered
        5 = true)
    ∧ ((instanceAccess (cleanUp
          (some ((MockVerifier.create : MockVerifier Nat).getMock 5 "Foo").1))).2.isMockRegistered
        5 = false) :=
  ⟨by decide,
    cleanUp_then_instance_fresh (some ((MockVerifier.create : MockVerifier Nat).getMock 5 "Foo").1)
      5 (by decide)⟩

/-- C9: for two distinct registered identities `A ≠ B`, recording a call via
`methodCall` on `A`'s verifier leaves `B`'s ledger unchanged: every `verify`
query against `B`'s verifier (any method, any expected count) returns the same
result — boolean and diagnostic output alike — as before the call on `A`. -/
theorem methodCall_instance_frame (g : MockVerifier α) (A B : Nat) (cnA cnB m m2 : String)
    (payload : α) (t : Int) (hAB : A ≠ B) (hB : g.isMockRegistered B = true) :
    ((g.mockMethodCall A cnA m payload).getMock B cnB).2.verify m2 t
      = (g.getMock B cnB).2.verify m2 t := by
  exact congrArg (fun v => MockClassVerifier.verify v m2 t)
    (MockVerifier.getMock_snd_of_eq B cnB
      (MockVerifier.mockMethodCall_lookup_ne g A B cnA m payload hAB))

/-- Witness for `methodCall_instance_frame`: identity 2 registered, a call
recorded against identity 1, `verify` on identity 2 unchanged. -/
theorem methodCall_instance_frame_witness :
    ((((MockVerifier.create : MockVerifier Nat).getMock 2 "Foo").1.isMockRegistered 2) = true)
    ∧ (((((MockVerifier.create : MockVerifier Nat).getMock 2 "Foo").1.mockMethodCall 1 "Foo"
          "bar" 7).getMock 2 "Foo").2.verify "bar" 0
        = ((((MockVerifier.create : MockVerifier Nat).getMock 2 "Foo").1).getMock 2
            "Foo").2.verify "bar" 0) :=
  ⟨by decide,
    methodCall_instance_frame ((MockVerifier.create : MockVerifier Nat).getMock 2 "Foo").1
      1 2 "Foo" "Foo" "bar" "bar" 7 0 (by decide) (by decide)⟩

/-- C10: class-name-keyed default mocks and pointer-keyed instance mocks are
disjoint state. With the same class name `cn` used for both (the trait value
`TypeParseTraits<T>::ClassName`), `methodCall` or `dupeMethod` performed on
the verifier returned by `getDefaultMock(cn)` never changes any `verify`
result on the verifier returned by `getMock(p)` (first two conjuncts), and
vice versa (last two conjuncts); `verify` itself is `const` in the source and
is modelled as a pure query, so it changes neither side. -/
theorem default_instance_mocks_disjoint (g : MockVerifier α) (p : Nat) (cn m m2 : String)
    (payload : α) (h : HandlerExpr) (flag : Bool) (t : Int) :
    (((g.defaultMethodCall cn m payload).getMock p cn).2.verify m2 t
        = (g.getMock p cn).2.verify m2 t)
    ∧ (((g.defaultDupeMethod cn m h flag).getMock p cn).2.verify m2 t
        = (g.getMock p cn).2.verify m2 t)
    ∧ (((g.mockMethodCall p cn m payload).getDefaultMock cn).2.verify m2 t
        = (g.getDefaultMock cn).2.verify m2 t)
    ∧ (((g.mockDupeMethod p cn m h flag).getDefaultMock cn).2.verify m2 t
        = (g.getDefaultMock cn).2.verify m2 t) := by
  refine ⟨?_, ?_, ?_, ?_⟩
  · exact congrArg (fun v => MockClassVerifier.verify v m2 t)
      (MockVerifier.getMock_snd_of_eq p cn
        (congrFun (MockVerifier.defaultMethodCall_mockedClass g cn m payload) p))
  · exact congrArg (fun v => MockClassVerifier.verify v m2 t)
      (MockVerifier.getMock_snd_of_eq p cn
        (congrFun (MockVerifier.defaultDupeMethod_mockedClass g cn m h flag) p))
  · exact congrArg (fun v => MockClassVerifier.verify v m2 t)
      (MockVerifier.getDefaultMock_snd_of_eq cn
        (congrFun (MockVerifier.mockMethodCall_defaultMockedClass g p cn m payload) cn))
  · exact congrArg (fun v => MockClassVerifier.verify v m2 t)
      (MockVerifier.getDefaultMock_snd_of_eq cn
        (congrFun (MockVerifier.mockDupeMethod_defaultMockedClass g p cn m h flag) cn))

end FSeam
